import Mathlib

/-!
Verification of the request-forwarding pipeline of `src/index.ts` (a
Cloudflare Workers proxy).  The worker's `fetch` handler is embedded
shallowly: the hosting runtime's URL parser (`new URL`) and the outbound
`fetch` are parameters of the pipeline, headers are modelled as the
lowercase-keyed association lists that the JS `Headers` class maintains
(`set` overwrites case-insensitively), and bodies are modelled as optional
byte strings.
-/

namespace WorkersProxy

/-- ASCII lowercasing of a header name or scheme, the observable behaviour of
JS `toLowerCase()` on the ASCII strings that occur here. -/
def lowerName (s : String) : String :=
  String.mk (s.data.map Char.toLower)

/-- The fields of a parsed URL object that the worker reads.  `protocol`
includes the trailing colon, as in the WHATWG URL API. -/
structure URLRec where
  protocol : String
  host : String
  href : String
  origin : String
  pathname : String
  search : String
deriving Repr, DecidableEq

/-- An inbound request as the runtime hands it to the worker: method, the
parsed request URL (`new URL(req.url)`), the header entries in iteration
order, and an optional body (a byte string). -/
structure WRequest where
  method : String
  url : URLRec
  headers : List (String × String)
  body : Option String
deriving Repr, DecidableEq

/-- The upstream response delivered by the outbound `fetch`. -/
structure UpstreamResponse where
  status : Nat
  statusText : String
  headers : List (String × String)
  body : Option String
deriving Repr, DecidableEq

/-- The argument of the outbound `fetch` call: target href plus the request
init record built at lines 87-92 of `src/index.ts`. -/
structure OutboundRequest where
  href : String
  method : String
  headers : List (String × String)
  body : Option String
  redirect : String
deriving Repr, DecidableEq

/-- A response body as the worker constructs one: `null`, a plain-text
string, a JSON object serialised from an ordered field list, or the
upstream body passed through. -/
inductive ProxyBody where
  | none
  | text (s : String)
  | jsonObj (fields : List (String × String))
  | passthrough (b : Option String)
deriving Repr, DecidableEq

/-- The response the worker returns to the caller. -/
structure WResponse where
  status : Nat
  statusText : String
  headers : List (String × String)
  body : ProxyBody
deriving Repr, DecidableEq

/-- `Headers.set`: store under the lowercased name, replacing any existing
entry with that name. -/
def hset (hs : List (String × String)) (k v : String) : List (String × String) :=
  hs.filter (fun p => p.1 != lowerName k) ++ [(lowerName k, v)]

/-- `Headers.get`: case-insensitive lookup (keys are stored lowercased, so
the name is lowercased before comparing). -/
def hget : List (String × String) → String → Option String
  | [], _ => Option.none
  | p :: t, k => if p.1 = lowerName k then Option.some p.2 else hget t k

/-- Construct a `Headers` object from a list of entries (`new Headers(init)`);
every name in the inits that occur in the worker is distinct, so filling by
overwrite coincides with the append semantics of the JS constructor. -/
def hcopy (l : List (String × String)) : List (String × String) :=
  l.foldl (fun acc p => hset acc p.1 p.2) []

/-- The header names not forwarded upstream (line 78 of `src/index.ts`). -/
def skipHeaders : List String :=
  ["host", "connection", "keep-alive", "cf-connecting-ip", "cf-ray", "cf-visitor"]

/-- The body of the copying loop at lines 77-82: skip an entry whose
lowercased name is excluded, otherwise `set` it. -/
def copyStep (acc : List (String × String)) (p : String × String) :
    List (String × String) :=
  if skipHeaders.contains (lowerName p.1) then acc else hset acc p.1 p.2

/-- Lines 73-84: copy every inbound header whose lowercased name is not in
`skipHeaders` into a fresh `Headers` object, then set `Host` to the target
host. -/
def buildProxyHeaders (reqHeaders : List (String × String)) (target : URLRec) :
    List (String × String) :=
  hset (reqHeaders.foldl copyStep []) "Host" target.host

/-- Lines 87-92: the outbound request handed to `fetch` — target href, the
original method, the filtered headers, the body only for non-GET/HEAD
methods, and `redirect: follow`. -/
def buildOutbound (req : WRequest) (target : URLRec) : OutboundRequest :=
  { href := target.href
    method := req.method
    headers := buildProxyHeaders req.headers target
    body := if req.method != "GET" && req.method != "HEAD" then req.body else Option.none
    redirect := "follow" }

/-- The JSON payload of the invalid-URL response (lines 39-43). -/
def invalidURLBody (origin : String) : ProxyBody :=
  ProxyBody.jsonObj
    [("error", "Invalid URL"),
     ("message", "Please provide a valid URL to proxy"),
     ("usage", origin ++ "/https://example.com")]

/-- The JSON payload of the invalid-protocol response (lines 57-60). -/
def invalidProtocolBody : ProxyBody :=
  ProxyBody.jsonObj
    [("error", "Invalid Protocol"),
     ("message", "Only HTTP and HTTPS protocols are supported")]

/-- The JSON payload of the dispatch-failure response (lines 116-120): the
thrown value is modelled as `Option String` — `some msg` for an `Error`
with message `msg`, `none` for a non-`Error` throw, matching
`error instanceof Error ? error.message : 'Failed to proxy request'`. -/
def proxyErrorBody (e : Option String) (href : String) : ProxyBody :=
  ProxyBody.jsonObj
    [("error", "Proxy Error"),
     ("message", e.getD "Failed to proxy request"),
     ("target", href)]

/-- The worker's `fetch` handler.  `parseURL` is the runtime's `new URL`
constructor on absolute-URL strings (`Option.none` for a parse failure, i.e.
a thrown `TypeError`), and `fetchUpstream` is the outbound `fetch`
(`Except.error e` for a rejected promise carrying thrown value `e`). -/
def workerFetch (parseURL : String → Option URLRec)
    (fetchUpstream : OutboundRequest → Except (Option String) UpstreamResponse)
    (req : WRequest) : WResponse :=
  let url := req.url
  if req.method == "OPTIONS" then
    { status := 200, statusText := "",
      headers := hcopy
        [("Access-Control-Allow-Origin", "*"),
         ("Access-Control-Allow-Methods", "GET, POST, PUT, DELETE, PATCH, OPTIONS"),
         ("Access-Control-Allow-Headers", "*"),
         ("Access-Control-Max-Age", "86400")],
      body := ProxyBody.none }
  else
    let targetUrl := url.pathname.drop 1 ++ url.search
    if targetUrl == "" then
      { status := 200, statusText := "",
        headers := hcopy [("Content-Type", "text/plain; charset=utf-8")],
        body := ProxyBody.text "Hello World" }
    else
      match parseURL targetUrl with
      | Option.none =>
        { status := 400, statusText := "",
          headers := hcopy
            [("Content-Type", "application/json"),
             ("Access-Control-Allow-Origin", "*")],
          body := invalidURLBody url.origin }
      | Option.some target =>
        if !(["http:", "https:"].contains target.protocol) then
          { status := 400, statusText := "",
            headers := hcopy
              [("Content-Type", "application/json"),
               ("Access-Control-Allow-Origin", "*")],
            body := invalidProtocolBody }
        else
          match fetchUpstream (buildOutbound req target) with
          | Except.ok proxyResponse =>
            let responseHeaders := hcopy proxyResponse.headers
            let responseHeaders := hset responseHeaders "Access-Control-Allow-Origin" "*"
            let responseHeaders := hset responseHeaders "Access-Control-Allow-Methods"
              "GET, POST, PUT, DELETE, PATCH, OPTIONS"
            let responseHeaders := hset responseHeaders "Access-Control-Allow-Headers" "*"
            let responseHeaders := hset responseHeaders "X-Proxied-By" "Cloudflare-Workers-Proxy"
            let responseHeaders := hset responseHeaders "X-Target-URL" target.href
            { status := proxyResponse.status
              statusText := proxyResponse.statusText
              headers := responseHeaders
              body := ProxyBody.passthrough proxyResponse.body }
          | Except.error e =>
            { status := 502, statusText := "",
              headers := hcopy
                [("Content-Type", "application/json"),
                 ("Access-Control-Allow-Origin", "*")],
              body := proxyErrorBody e target.href }

/-- Split a character list at its first colon: `some (scheme, rest)` when a
colon occurs, `none` otherwise. -/
def schemeSplit : List Char → Option (List Char × List Char)
  | [] => Option.none
  | c :: cs =>
    if c = ':' then Option.some ([], cs)
    else
      match schemeSplit cs with
      | Option.some (sch, rest) => Option.some (c :: sch, rest)
      | Option.none => Option.none

/-- A URL scheme: an ASCII letter followed by letters, digits, `+`, `-`, `.`. -/
def validSchemeChars : List Char → Bool
  | [] => false
  | c :: cs => c.isAlpha && cs.all (fun d => d.isAlphanum || d == '+' || d == '-' || d == '.')

/-- The authority part of a URL whose remainder after the scheme starts with
`//`: the characters up to the next `/`, `?` or `#`. -/
def hostOf : List Char → String
  | '/' :: '/' :: r => String.mk (r.takeWhile (fun c => c != '/' && c != '?' && c != '#'))
  | _ => ""

/-- Modelled from the spec: the hosting runtime's WHATWG absolute-URL parser
(`new URL(s)` with no base), which is not part of this repository.  Parsing
fails (the constructor throws) unless the string begins with a scheme and a
colon; on success the scheme is lowercased into `protocol` and the host is
read from an authority introduced by `//`.  Only the fields the worker reads
from a target URL (`protocol`, `host`, `href`, `origin`) are computed;
`href` is the input string (the model omits WHATWG normalisation). -/
def urlParseModel (s : String) : Option URLRec :=
  match schemeSplit s.data with
  | Option.none => Option.none
  | Option.some (sch, rest) =>
    if validSchemeChars sch then
      let proto := String.mk (sch.map Char.toLower) ++ ":"
      Option.some
        { protocol := proto, host := hostOf rest, href := s,
          origin := proto ++ "//" ++ hostOf rest, pathname := "", search := "" }
    else Option.none

/-- The value of the last entry of `l` whose name equals `n` up to ASCII
case, if any: the reference reading of copying entries in order with
overwrite-by-name ("last value wins"). -/
def lookupLastCI : List (String × String) → String → Option String
  | [], _ => Option.none
  | p :: t, n =>
    match lookupLastCI t n with
    | Option.some v => Option.some v
    | Option.none =>
      if lowerName p.1 = lowerName n then Option.some p.2 else Option.none

/-- The effective target string: pathname without its leading slash,
concatenated with the query string (line 22). -/
def effectiveTarget (u : URLRec) : String :=
  u.pathname.drop 1 ++ u.search

/-- Whether a JSON response payload carries a field named `k`. -/
def hasField : ProxyBody → String → Bool
  | ProxyBody.jsonObj fields, k => fields.any (fun p => p.1 == k)
  | _, _ => false

/-- The lowercased names of the five headers the success branch overlays. -/
def overlayNames : List String :=
  ["access-control-allow-origin", "access-control-allow-methods",
   "access-control-allow-headers", "x-proxied-by", "x-target-url"]

/-- Test fixture: the worker's own URL for a given inbound path and query. -/
def inboundURL (path search : String) : URLRec :=
  { protocol := "https:", host := "proxy.example.workers.dev",
    href := "https://proxy.example.workers.dev" ++ path ++ search,
    origin := "https://proxy.example.workers.dev",
    pathname := path, search := search }

/-- Test fixture: an outbound `fetch` that always resolves with `r`. -/
def fetchConst (r : UpstreamResponse) :
    OutboundRequest → Except (Option String) UpstreamResponse :=
  fun _ => Except.ok r

/-- Test fixture: an outbound `fetch` that always rejects with thrown value
`e`. -/
def fetchRejects (e : Option String) :
    OutboundRequest → Except (Option String) UpstreamResponse :=
  fun _ => Except.error e

/-- Test fixture: a plain upstream 200 response. -/
def upstreamOK : UpstreamResponse :=
  { status := 200, statusText := "OK",
    headers := [("content-type", "text/html"), ("x-upstream", "1")],
    body := Option.some "hello from upstream" }

/-- Test fixture: the parsed target for `https://api.example.com/users`,
as `urlParseModel` produces it. -/
def apiTarget : URLRec :=
  { protocol := "https:", host := "api.example.com",
    href := "https://api.example.com/users",
    origin := "https://api.example.com", pathname := "", search := "" }

/-- `Headers.get` after `Headers.set`: the set name reads back the set value,
any other name is unaffected. -/
theorem hget_hset (hs : List (String × String)) (k v n : String) :
    hget (hset hs k v) n =
      if lowerName n = lowerName k then Option.some v else hget hs n := by
  induction hs with
  | nil =>
    by_cases h : lowerName n = lowerName k
    · simp [hget, hset, h]
    · have h2 : ¬ lowerName k = lowerName n := fun hk => h hk.symm
      simp [hget, hset, h, h2]
  | cons a t ih =>
    simp only [hset] at ih ⊢
    by_cases hak : a.1 = lowerName k
    · rw [List.filter_cons_of_neg (by simp [hak])]
      rw [ih]
      by_cases h : lowerName n = lowerName k
      · simp [h]
      · have han : ¬ a.1 = lowerName n := by
          rw [hak]; exact fun hk => h hk.symm
        simp [hget, h, han]
    · rw [List.filter_cons_of_pos (by simp [hak])]
      by_cases han : a.1 = lowerName n
      · have h : ¬ lowerName n = lowerName k := by
          rw [← han]; exact fun hk => hak hk
        simp [hget, List.cons_append, han, h]
      · simp only [List.cons_append]
        simp [hget, han, ih]

/-- Folding the copying loop over the inbound entries: an excluded name is
never written, a non-excluded name reads back as its last inbound value,
falling back to the accumulator. -/
theorem hget_copyLoop (l : List (String × String)) (init : List (String × String))
    (n : String) :
    hget (l.foldl copyStep init) n =
      if skipHeaders.contains (lowerName n) then hget init n
      else
        match lookupLastCI l n with
        | Option.some v => Option.some v
        | Option.none => hget init n := by
  induction l generalizing init with
  | nil =>
    cases h : skipHeaders.contains (lowerName n) <;> simp [lookupLastCI, h]
  | cons p t ih =>
    rw [List.foldl_cons, ih]
    have hstep : hget (copyStep init p) n =
        if lowerName p.1 = lowerName n then
          (if skipHeaders.contains (lowerName n) then hget init n else Option.some p.2)
        else hget init n := by
      unfold copyStep
      by_cases hpn : lowerName p.1 = lowerName n
      · rw [hpn]
        cases hsk : skipHeaders.contains (lowerName n)
        · simp [hsk, hget_hset, hpn]
        · simp [hsk, hpn]
      · cases hsk : skipHeaders.contains (lowerName p.1)
        · have hnp : ¬ lowerName n = lowerName p.1 := fun h => hpn h.symm
          simp [hsk, hget_hset, hpn, hnp]
        · simp [hsk, hpn]
    cases hsk : skipHeaders.contains (lowerName n)
    · have hsk2 : lowerName n ∉ skipHeaders := by simpa using hsk
      simp only [hsk, if_false, Bool.false_eq_true]
      cases hlast : lookupLastCI t n
      · by_cases hpn : lowerName p.1 = lowerName n
        · simp [lookupLastCI, hlast, hstep, hsk, hpn, hsk2]
        · simp [lookupLastCI, hlast, hstep, hpn]
      · simp [lookupLastCI, hlast]
    · have hsk2 : lowerName n ∈ skipHeaders := by simpa using hsk
      simp only [hsk, if_true]
      rw [hstep]
      by_cases hpn : lowerName p.1 = lowerName n
      · simp [hpn, hsk, hsk2]
      · simp [hpn]

/-- Reduction of the OPTIONS branch (lines 10-19). -/
theorem workerFetch_options (p : String → Option URLRec)
    (f : OutboundRequest → Except (Option String) UpstreamResponse) (req : WRequest)
    (h : req.method = "OPTIONS") :
    workerFetch p f req =
      { status := 200, statusText := "",
        headers := hcopy
          [("Access-Control-Allow-Origin", "*"),
           ("Access-Control-Allow-Methods", "GET, POST, PUT, DELETE, PATCH, OPTIONS"),
           ("Access-Control-Allow-Headers", "*"),
           ("Access-Control-Max-Age", "86400")],
        body := ProxyBody.none } := by
  unfold workerFetch
  simp [h]

/-- Reduction of the root branch (lines 25-31). -/
theorem workerFetch_hello (p : String → Option URLRec)
    (f : OutboundRequest → Except (Option String) UpstreamResponse) (req : WRequest)
    (h1 : req.method ≠ "OPTIONS") (h2 : effectiveTarget req.url = "") :
    workerFetch p f req =
      { status := 200, statusText := "",
        headers := hcopy [("Content-Type", "text/plain; charset=utf-8")],
        body := ProxyBody.text "Hello World" } := by
  unfold workerFetch effectiveTarget at *
  simp [h1, h2]

/-- Reduction of the invalid-URL branch (lines 38-52). -/
theorem workerFetch_invalidURL (p : String → Option URLRec)
    (f : OutboundRequest → Except (Option String) UpstreamResponse) (req : WRequest)
    (h1 : req.method ≠ "OPTIONS") (h2 : effectiveTarget req.url ≠ "")
    (h3 : p (effectiveTarget req.url) = Option.none) :
    workerFetch p f req =
      { status := 400, statusText := "",
        headers := hcopy
          [("Content-Type", "application/json"),
           ("Access-Control-Allow-Origin", "*")],
        body := invalidURLBody req.url.origin } := by
  unfold workerFetch effectiveTarget at *
  simp [h1, h2, h3]

/-- Reduction of the invalid-protocol branch (lines 55-69). -/
theorem workerFetch_invalidProtocol (p : String → Option URLRec)
    (f : OutboundRequest → Except (Option String) UpstreamResponse) (req : WRequest)
    (target : URLRec)
    (h1 : req.method ≠ "OPTIONS") (h2 : effectiveTarget req.url ≠ "")
    (h3 : p (effectiveTarget req.url) = Option.some target)
    (h4 : ["http:", "https:"].contains target.protocol = false) :
    workerFetch p f req =
      { status := 400, statusText := "",
        headers := hcopy
          [("Content-Type", "application/json"),
           ("Access-Control-Allow-Origin", "*")],
        body := invalidProtocolBody } := by
  have h4a : ¬ target.protocol = "http:" ∧ ¬ target.protocol = "https:" := by
    simpa using h4
  unfold workerFetch effectiveTarget at *
  simp [h1, h2, h3, h4a.1, h4a.2]

/-- Reduction of the success branch (lines 95-111). -/
theorem workerFetch_success (p : String → Option URLRec)
    (f : OutboundRequest → Except (Option String) UpstreamResponse) (req : WRequest)
    (target : URLRec) (pr : UpstreamResponse)
    (h1 : req.method ≠ "OPTIONS") (h2 : effectiveTarget req.url ≠ "")
    (h3 : p (effectiveTarget req.url) = Option.some target)
    (h4 : ["http:", "https:"].contains target.protocol = true)
    (h5 : f (buildOutbound req target) = Except.ok pr) :
    workerFetch p f req =
      { status := pr.status, statusText := pr.statusText,
        headers :=
          hset (hset (hset (hset (hset (hcopy pr.headers)
            "Access-Control-Allow-Origin" "*")
            "Access-Control-Allow-Methods" "GET, POST, PUT, DELETE, PATCH, OPTIONS")
            "Access-Control-Allow-Headers" "*")
            "X-Proxied-By" "Cloudflare-Workers-Proxy")
            "X-Target-URL" target.href,
        body := ProxyBody.passthrough pr.body } := by
  have h4a : target.protocol = "http:" ∨ target.protocol = "https:" := by
    simpa using h4
  unfold workerFetch effectiveTarget at *
  rcases h4a with h | h <;> simp [h1, h2, h3, h, h5]

/-- Reduction of the dispatch-failure branch (lines 113-130). -/
theorem workerFetch_failure (p : String → Option URLRec)
    (f : OutboundRequest → Except (Option String) UpstreamResponse) (req : WRequest)
    (target : URLRec) (e : Option String)
    (h1 : req.method ≠ "OPTIONS") (h2 : effectiveTarget req.url ≠ "")
    (h3 : p (effectiveTarget req.url) = Option.some target)
    (h4 : ["http:", "https:"].contains target.protocol = true)
    (h5 : f (buildOutbound req target) = Except.error e) :
    workerFetch p f req =
      { status := 502, statusText := "",
        headers := hcopy
          [("Content-Type", "application/json"),
           ("Access-Control-Allow-Origin", "*")],
        body := proxyErrorBody e target.href } := by
  have h4a : target.protocol = "http:" ∨ target.protocol = "https:" := by
    simpa using h4
  unfold workerFetch effectiveTarget at *
  rcases h4a with h | h <;> simp [h1, h2, h3, h, h5]

/-- Lookup in the five-header overlay of the success branch. -/
theorem hget_overlay (hs : List (String × String)) (href : String) (n : String) :
    hget (hset (hset (hset (hset (hset hs
        "Access-Control-Allow-Origin" "*")
        "Access-Control-Allow-Methods" "GET, POST, PUT, DELETE, PATCH, OPTIONS")
        "Access-Control-Allow-Headers" "*")
        "X-Proxied-By" "Cloudflare-Workers-Proxy")
        "X-Target-URL" href) n =
      if lowerName n = "x-target-url" then Option.some href
      else if lowerName n = "x-proxied-by" then Option.some "Cloudflare-Workers-Proxy"
      else if lowerName n = "access-control-allow-headers" then Option.some "*"
      else if lowerName n = "access-control-allow-methods" then
        Option.some "GET, POST, PUT, DELETE, PATCH, OPTIONS"
      else if lowerName n = "access-control-allow-origin" then Option.some "*"
      else hget hs n := by
  rw [hget_hset, hget_hset, hget_hset, hget_hset, hget_hset]
  have e1 : lowerName "X-Target-URL" = "x-target-url" := by decide
  have e2 : lowerName "X-Proxied-By" = "x-proxied-by" := by decide
  have e3 : lowerName "Access-Control-Allow-Headers" = "access-control-allow-headers" := by
    decide
  have e4 : lowerName "Access-Control-Allow-Methods" = "access-control-allow-methods" := by
    decide
  have e5 : lowerName "Access-Control-Allow-Origin" = "access-control-allow-origin" := by
    decide
  rw [e1, e2, e3, e4, e5]

/-- C2: for every request reaching the header filter, the outbound header
set answers every lookup as follows — `Host` (case-insensitively) reads the
target host, any other name from the exclusion set reads nothing, and any
remaining name reads the last inbound value carried under that name. -/
theorem header_filter_exact (hs : List (String × String)) (target : URLRec)
    (n : String) :
    hget (buildProxyHeaders hs target) n =
      if lowerName n = "host" then Option.some target.host
      else if skipHeaders.contains (lowerName n) then Option.none
      else lookupLastCI hs n := by
  unfold buildProxyHeaders
  rw [hget_hset]
  have eh : lowerName "Host" = "host" := by decide
  rw [eh, hget_copyLoop]
  by_cases h1 : lowerName n = "host"
  · simp [h1]
  · simp only [h1, if_false]
    cases h2 : skipHeaders.contains (lowerName n)
    · simp only [h2, Bool.false_eq_true, if_false]
      cases h3 : lookupLastCI hs n <;> simp [hget, h3]
    · simp [h2, hget]

/-- C3: the outbound request carries no body for GET and HEAD even when the
inbound request carried one, and forwards the inbound body unchanged for
every other method. -/
theorem outbound_body_rule (req : WRequest) (target : URLRec) :
    ((req.method = "GET" ∨ req.method = "HEAD") →
      (buildOutbound req target).body = Option.none) ∧
    (¬ (req.method = "GET" ∨ req.method = "HEAD") →
      (buildOutbound req target).body = req.body) := by
  constructor
  · intro h
    unfold buildOutbound
    rcases h with h | h <;> simp [h]
  · intro h
    push_neg at h
    unfold buildOutbound
    simp [h.1, h.2]

/-- Witness for `outbound_body_rule`: a GET with an inbound body loses it,
a POST forwards its body byte-identically. -/
theorem outbound_body_rule_witness :
    (buildOutbound
      { method := "GET", url := inboundURL "/https://api.example.com/users" "",
        headers := [], body := Option.some "ignored" } apiTarget).body = Option.none ∧
    (buildOutbound
      { method := "POST", url := inboundURL "/https://api.example.com/users" "",
        headers := [], body := Option.some "payload" } apiTarget).body =
      Option.some "payload" := by
  constructor
  · exact (outbound_body_rule _ apiTarget).1 (Or.inl rfl)
  · have h := (outbound_body_rule
      { method := "POST", url := inboundURL "/https://api.example.com/users" "",
        headers := [], body := Option.some "payload" } apiTarget).2 (by decide)
    rw [h]

/-- C3 counterexample: a POST request that carries no inbound body produces
an outbound request with no body although its method is neither GET nor
HEAD, so "carries a body if and only if the method is neither GET nor HEAD"
fails in the only-if-to-if direction. -/
theorem post_without_body_carries_none :
    (buildOutbound
      { method := "POST", url := inboundURL "/https://api.example.com/users" "",
        headers := [], body := Option.none } apiTarget).body = Option.none ∧
    ("POST" : String) ≠ "GET" ∧ ("POST" : String) ≠ "HEAD" := by
  decide

/-- C7: an OPTIONS request yields a 200 response with no body and the three
CORS headers plus Access-Control-Max-Age 86400, and the result is
independent of both the URL parser and the dispatcher (neither stage is
invoked). -/
theorem options_preflight (p p2 : String → Option URLRec)
    (f f2 : OutboundRequest → Except (Option String) UpstreamResponse)
    (req : WRequest) (h : req.method = "OPTIONS") :
    (workerFetch p f req).status = 200 ∧
    (workerFetch p f req).body = ProxyBody.none ∧
    hget (workerFetch p f req).headers "Access-Control-Allow-Origin" =
      Option.some "*" ∧
    hget (workerFetch p f req).headers "Access-Control-Allow-Methods" =
      Option.some "GET, POST, PUT, DELETE, PATCH, OPTIONS" ∧
    hget (workerFetch p f req).headers "Access-Control-Allow-Headers" =
      Option.some "*" ∧
    hget (workerFetch p f req).headers "Access-Control-Max-Age" =
      Option.some "86400" ∧
    workerFetch p f req = workerFetch p2 f2 req := by
  rw [workerFetch_options p f req h, workerFetch_options p2 f2 req h]
  exact ⟨rfl, rfl, by decide, by decide, by decide, by decide, rfl⟩

/-- Witness for `options_preflight` at a concrete OPTIONS request. -/
theorem options_preflight_witness :
    (workerFetch urlParseModel (fetchConst upstreamOK)
      { method := "OPTIONS", url := inboundURL "/https://api.example.com/users" "",
        headers := [], body := Option.none }).status = 200 ∧
    (workerFetch urlParseModel (fetchConst upstreamOK)
      { method := "OPTIONS", url := inboundURL "/https://api.example.com/users" "",
        headers := [], body := Option.none }).body = ProxyBody.none := by
  have h := options_preflight urlParseModel urlParseModel (fetchConst upstreamOK)
    (fetchRejects (Option.some "down"))
    { method := "OPTIONS", url := inboundURL "/https://api.example.com/users" "",
      headers := [], body := Option.none } rfl
  exact ⟨h.1, h.2.1⟩

/-- C8 counterexample: for `GET /` with query string `?x=1` the effective
target is `?x=1`, which is non-empty and fails absolute-URL parsing, so the
worker returns the 400 invalid-URL response, not the Hello World greeting
the claim asserts. -/
theorem root_with_query_not_hello :
    (workerFetch urlParseModel (fetchConst upstreamOK)
      { method := "GET", url := inboundURL "/" "?x=1",
        headers := [], body := Option.none }).status = 400 ∧
    (workerFetch urlParseModel (fetchConst upstreamOK)
      { method := "GET", url := inboundURL "/" "?x=1",
        headers := [], body := Option.none }).body ≠
      ProxyBody.text "Hello World" := by
  decide

/-- C8 (amended): for every non-OPTIONS request with path `/` and an empty
query string the response is exactly 200 text/plain with body Hello World;
with a non-empty query string the effective target is the query string
itself and the request falls through to URL validation instead. -/
theorem hello_world_root (p : String → Option URLRec)
    (f : OutboundRequest → Except (Option String) UpstreamResponse)
    (req : WRequest) (h1 : req.method ≠ "OPTIONS")
    (h2 : req.url.pathname = "/") (h3 : req.url.search = "") :
    (workerFetch p f req).status = 200 ∧
    (workerFetch p f req).body = ProxyBody.text "Hello World" ∧
    hget (workerFetch p f req).headers "Content-Type" =
      Option.some "text/plain; charset=utf-8" := by
  have he : effectiveTarget req.url = "" := by
    unfold effectiveTarget
    rw [h2, h3]
    decide
  rw [workerFetch_hello p f req h1 he]
  exact ⟨rfl, rfl, by decide⟩

/-- Witness for `hello_world_root` at `GET /`. -/
theorem hello_world_root_witness :
    (workerFetch urlParseModel (fetchConst upstreamOK)
      { method := "GET", url := inboundURL "/" "",
        headers := [], body := Option.none }).status = 200 ∧
    (workerFetch urlParseModel (fetchConst upstreamOK)
      { method := "GET", url := inboundURL "/" "",
        headers := [], body := Option.none }).body =
      ProxyBody.text "Hello World" := by
  have h := hello_world_root urlParseModel (fetchConst upstreamOK)
    { method := "GET", url := inboundURL "/" "", headers := [], body := Option.none }
    (by decide) rfl rfl
  exact ⟨h.1, h.2.1⟩

/-- C10: the Hello World response carries Content-Type as its only header;
in particular none of the CORS or diagnostic headers of the other branches
are present. -/
theorem hello_world_header_isolation (p : String → Option URLRec)
    (f : OutboundRequest → Except (Option String) UpstreamResponse)
    (req : WRequest) (h1 : req.method ≠ "OPTIONS")
    (h2 : req.url.pathname = "/") (h3 : req.url.search = "") :
    (workerFetch p f req).headers =
      [("content-type", "text/plain; charset=utf-8")] ∧
    hget (workerFetch p f req).headers "Access-Control-Allow-Origin" =
      Option.none ∧
    hget (workerFetch p f req).headers "Access-Control-Allow-Methods" =
      Option.none ∧
    hget (workerFetch p f req).headers "Access-Control-Allow-Headers" =
      Option.none ∧
    hget (workerFetch p f req).headers "Access-Control-Max-Age" = Option.none ∧
    hget (workerFetch p f req).headers "X-Proxied-By" = Option.none ∧
    hget (workerFetch p f req).headers "X-Target-URL" = Option.none := by
  have he : effectiveTarget req.url = "" := by
    unfold effectiveTarget
    rw [h2, h3]
    decide
  rw [workerFetch_hello p f req h1 he]
  exact ⟨by decide, by decide, by decide, by decide, by decide, by decide, by decide⟩

/-- Witness for `hello_world_header_isolation` at `GET /`. -/
theorem hello_world_header_isolation_witness :
    (workerFetch urlParseModel (fetchConst upstreamOK)
      { method := "GET", url := inboundURL "/" "",
        headers := [], body := Option.none }).headers =
      [("content-type", "text/plain; charset=utf-8")] ∧
    hget (workerFetch urlParseModel (fetchConst upstreamOK)
      { method := "GET", url := inboundURL "/" "",
        headers := [], body := Option.none }).headers
      "Access-Control-Allow-Origin" = Option.none := by
  have h := hello_world_header_isolation urlParseModel (fetchConst upstreamOK)
    { method := "GET", url := inboundURL "/" "", headers := [], body := Option.none }
    (by decide) rfl rfl
  exact ⟨h.1, h.2.1⟩

/-- C4: a non-OPTIONS request whose non-empty effective target fails URL
parsing yields 400 with Content-Type application/json, CORS origin `*`, and
the invalid-URL JSON payload whose usage field is the proxy origin followed
by `/https://example.com`; the result does not depend on the dispatcher, so
no outbound dispatch occurs. -/
theorem invalid_url_response (p : String → Option URLRec)
    (f f2 : OutboundRequest → Except (Option String) UpstreamResponse)
    (req : WRequest) (h1 : req.method ≠ "OPTIONS")
    (h2 : effectiveTarget req.url ≠ "")
    (h3 : p (effectiveTarget req.url) = Option.none) :
    (workerFetch p f req).status = 400 ∧
    hget (workerFetch p f req).headers "Content-Type" =
      Option.some "application/json" ∧
    hget (workerFetch p f req).headers "Access-Control-Allow-Origin" =
      Option.some "*" ∧
    (workerFetch p f req).body = ProxyBody.jsonObj
      [("error", "Invalid URL"),
       ("message", "Please provide a valid URL to proxy"),
       ("usage", req.url.origin ++ "/https://example.com")] ∧
    workerFetch p f req = workerFetch p f2 req := by
  rw [workerFetch_invalidURL p f req h1 h2 h3, workerFetch_invalidURL p f2 req h1 h2 h3]
  exact ⟨rfl, rfl, rfl, rfl, rfl⟩

/-- Witness for `invalid_url_response` at `GET /not-a-url`. -/
theorem invalid_url_response_witness :
    (workerFetch urlParseModel (fetchConst upstreamOK)
      { method := "GET", url := inboundURL "/not-a-url" "",
        headers := [], body := Option.none }).status = 400 ∧
    (workerFetch urlParseModel (fetchConst upstreamOK)
      { method := "GET", url := inboundURL "/not-a-url" "",
        headers := [], body := Option.none }).body = ProxyBody.jsonObj
      [("error", "Invalid URL"),
       ("message", "Please provide a valid URL to proxy"),
       ("usage", "https://proxy.example.workers.dev/https://example.com")] := by
  have h := invalid_url_response urlParseModel (fetchConst upstreamOK)
    (fetchRejects Option.none)
    { method := "GET", url := inboundURL "/not-a-url" "",
      headers := [], body := Option.none }
    (by decide) (by decide) (by decide)
  refine ⟨h.1, ?_⟩
  rw [h.2.2.2.1]
  decide

/-- C5: a non-OPTIONS request whose effective target parses to a URL with a
scheme other than http or https yields 400 with Content-Type
application/json, CORS origin `*`, and the invalid-protocol JSON payload;
the result does not depend on the dispatcher, so no outbound dispatch
occurs. -/
theorem invalid_protocol_response (p : String → Option URLRec)
    (f f2 : OutboundRequest → Except (Option String) UpstreamResponse)
    (req : WRequest) (target : URLRec) (h1 : req.method ≠ "OPTIONS")
    (h2 : effectiveTarget req.url ≠ "")
    (h3 : p (effectiveTarget req.url) = Option.some target)
    (h4 : ["http:", "https:"].contains target.protocol = false) :
    (workerFetch p f req).status = 400 ∧
    hget (workerFetch p f req).headers "Content-Type" =
      Option.some "application/json" ∧
    hget (workerFetch p f req).headers "Access-Control-Allow-Origin" =
      Option.some "*" ∧
    (workerFetch p f req).body = ProxyBody.jsonObj
      [("error", "Invalid Protocol"),
       ("message", "Only HTTP and HTTPS protocols are supported")] ∧
    workerFetch p f req = workerFetch p f2 req := by
  rw [workerFetch_invalidProtocol p f req target h1 h2 h3 h4,
    workerFetch_invalidProtocol p f2 req target h1 h2 h3 h4]
  exact ⟨rfl, rfl, rfl, rfl, rfl⟩

/-- Witness for `invalid_protocol_response` at `GET /ftp://files.example.com/a.txt`. -/
theorem invalid_protocol_response_witness :
    (workerFetch urlParseModel (fetchConst upstreamOK)
      { method := "GET", url := inboundURL "/ftp://files.example.com/a.txt" "",
        headers := [], body := Option.none }).status = 400 ∧
    (workerFetch urlParseModel (fetchConst upstreamOK)
      { method := "GET", url := inboundURL "/ftp://files.example.com/a.txt" "",
        headers := [], body := Option.none }).body = ProxyBody.jsonObj
      [("error", "Invalid Protocol"),
       ("message", "Only HTTP and HTTPS protocols are supported")] := by
  have h := invalid_protocol_response urlParseModel (fetchConst upstreamOK)
    (fetchRejects Option.none)
    { method := "GET", url := inboundURL "/ftp://files.example.com/a.txt" "",
      headers := [], body := Option.none }
    { protocol := "ftp:", host := "files.example.com",
      href := "ftp://files.example.com/a.txt",
      origin := "ftp://files.example.com", pathname := "", search := "" }
    (by decide) (by decide) (by decide) (by decide)
  exact ⟨h.1, h.2.2.2.1⟩

/-- C6: when the outbound dispatch rejects, the worker catches the failure
and returns 502 with Content-Type application/json, CORS origin `*`, and
the proxy-error JSON payload carrying the underlying message and the target
href. -/
theorem proxy_error_response (p : String → Option URLRec)
    (f : OutboundRequest → Except (Option String) UpstreamResponse)
    (req : WRequest) (target : URLRec) (e : Option String)
    (h1 : req.method ≠ "OPTIONS") (h2 : effectiveTarget req.url ≠ "")
    (h3 : p (effectiveTarget req.url) = Option.some target)
    (h4 : ["http:", "https:"].contains target.protocol = true)
    (h5 : f (buildOutbound req target) = Except.error e) :
    (workerFetch p f req).status = 502 ∧
    hget (workerFetch p f req).headers "Content-Type" =
      Option.some "application/json" ∧
    hget (workerFetch p f req).headers "Access-Control-Allow-Origin" =
      Option.some "*" ∧
    (workerFetch p f req).body = ProxyBody.jsonObj
      [("error", "Proxy Error"),
       ("message", e.getD "Failed to proxy request"),
       ("target", target.href)] := by
  rw [workerFetch_failure p f req target e h1 h2 h3 h4 h5]
  exact ⟨rfl, rfl, rfl, rfl⟩

/-- Witness for `proxy_error_response`: dispatch to the target rejects with
a connection-refused error. -/
theorem proxy_error_response_witness :
    (workerFetch urlParseModel (fetchRejects (Option.some "connection refused"))
      { method := "GET", url := inboundURL "/https://api.example.com/users" "",
        headers := [], body := Option.none }).status = 502 ∧
    (workerFetch urlParseModel (fetchRejects (Option.some "connection refused"))
      { method := "GET", url := inboundURL "/https://api.example.com/users" "",
        headers := [], body := Option.none }).body = ProxyBody.jsonObj
      [("error", "Proxy Error"),
       ("message", "connection refused"),
       ("target", "https://api.example.com/users")] := by
  have h := proxy_error_response urlParseModel
    (fetchRejects (Option.some "connection refused"))
    { method := "GET", url := inboundURL "/https://api.example.com/users" "",
      headers := [], body := Option.none }
    apiTarget (Option.some "connection refused")
    (by decide) (by decide) (by decide) (by decide) rfl
  refine ⟨h.1, ?_⟩
  rw [h.2.2.2]
  decide

/-- C1: on a successful dispatch the worker preserves the upstream status
code, status text and body, overlays the three CORS headers plus
X-Proxied-By and X-Target-URL, and answers every other header lookup
exactly as the upstream header set does. -/
theorem success_wrapping (p : String → Option URLRec)
    (f : OutboundRequest → Except (Option String) UpstreamResponse)
    (req : WRequest) (target : URLRec) (pr : UpstreamResponse)
    (h1 : req.method ≠ "OPTIONS") (h2 : effectiveTarget req.url ≠ "")
    (h3 : p (effectiveTarget req.url) = Option.some target)
    (h4 : ["http:", "https:"].contains target.protocol = true)
    (h5 : f (buildOutbound req target) = Except.ok pr) :
    (workerFetch p f req).status = pr.status ∧
    (workerFetch p f req).statusText = pr.statusText ∧
    (workerFetch p f req).body = ProxyBody.passthrough pr.body ∧
    hget (workerFetch p f req).headers "Access-Control-Allow-Origin" =
      Option.some "*" ∧
    hget (workerFetch p f req).headers "Access-Control-Allow-Methods" =
      Option.some "GET, POST, PUT, DELETE, PATCH, OPTIONS" ∧
    hget (workerFetch p f req).headers "Access-Control-Allow-Headers" =
      Option.some "*" ∧
    hget (workerFetch p f req).headers "X-Proxied-By" =
      Option.some "Cloudflare-Workers-Proxy" ∧
    hget (workerFetch p f req).headers "X-Target-URL" =
      Option.some target.href ∧
    (∀ n, overlayNames.contains (lowerName n) = false →
      hget (workerFetch p f req).headers n = hget (hcopy pr.headers) n) := by
  rw [workerFetch_success p f req target pr h1 h2 h3 h4 h5]
  refine ⟨rfl, rfl, rfl, ?_, ?_, ?_, ?_, ?_, ?_⟩
  · rw [hget_overlay, if_neg (by decide), if_neg (by decide), if_neg (by decide),
      if_neg (by decide), if_pos (by decide)]
  · rw [hget_overlay, if_neg (by decide), if_neg (by decide), if_neg (by decide),
      if_pos (by decide)]
  · rw [hget_overlay, if_neg (by decide), if_neg (by decide), if_pos (by decide)]
  · rw [hget_overlay, if_neg (by decide), if_pos (by decide)]
  · rw [hget_overlay, if_pos (by decide)]
  · intro n hn
    have hn2 : ¬ lowerName n = "access-control-allow-origin" ∧
        ¬ lowerName n = "access-control-allow-methods" ∧
        ¬ lowerName n = "access-control-allow-headers" ∧
        ¬ lowerName n = "x-proxied-by" ∧
        ¬ lowerName n = "x-target-url" := by
      simpa [overlayNames, not_or] using hn
    rw [hget_overlay, if_neg hn2.2.2.2.2, if_neg hn2.2.2.2.1, if_neg hn2.2.2.1,
      if_neg hn2.2.1, if_neg hn2.1]

/-- Witness for `success_wrapping`: a proxied GET whose upstream answers 200
with an `x-upstream` header that survives into the final response. -/
theorem success_wrapping_witness :
    (workerFetch urlParseModel (fetchConst upstreamOK)
      { method := "GET", url := inboundURL "/https://api.example.com/users" "",
        headers := [("Accept", "application/json")], body := Option.none }).status = 200 ∧
    hget (workerFetch urlParseModel (fetchConst upstreamOK)
      { method := "GET", url := inboundURL "/https://api.example.com/users" "",
        headers := [("Accept", "application/json")], body := Option.none }).headers
      "X-Target-URL" = Option.some "https://api.example.com/users" ∧
    hget (workerFetch urlParseModel (fetchConst upstreamOK)
      { method := "GET", url := inboundURL "/https://api.example.com/users" "",
        headers := [("Accept", "application/json")], body := Option.none }).headers
      "x-upstream" = Option.some "1" := by
  have h := success_wrapping urlParseModel (fetchConst upstreamOK)
    { method := "GET", url := inboundURL "/https://api.example.com/users" "",
      headers := [("Accept", "application/json")], body := Option.none }
    apiTarget upstreamOK
    (by decide) (by decide) (by decide) (by decide) rfl
  refine ⟨?_, ?_, ?_⟩
  · rw [h.1]
    decide
  · rw [h.2.2.2.2.2.2.2.1]
    decide
  · rw [h.2.2.2.2.2.2.2.2 "x-upstream" (by decide)]
    decide

/-- C9 counterexample: the invalid-protocol error payload produced for a
`ftp:` target carries only the kind and the message — neither a usage hint
nor a target field, contrary to the claim that every error payload carries
a contextual field. -/
theorem invalid_protocol_no_context :
    (workerFetch urlParseModel (fetchConst upstreamOK)
      { method := "GET", url := inboundURL "/ftp://files.example.com/a.txt" "",
        headers := [], body := Option.none }).body = invalidProtocolBody ∧
    hasField (workerFetch urlParseModel (fetchConst upstreamOK)
      { method := "GET", url := inboundURL "/ftp://files.example.com/a.txt" "",
        headers := [], body := Option.none }).body "usage" = false ∧
    hasField (workerFetch urlParseModel (fetchConst upstreamOK)
      { method := "GET", url := inboundURL "/ftp://files.example.com/a.txt" "",
        headers := [], body := Option.none }).body "target" = false := by
  decide

/-- C9 (amended): the invalid-URL payload carries a usage hint and the
dispatch-failure payload carries the target URL, while the invalid-protocol
payload carries neither contextual field, only its kind and message. -/
theorem error_payload_context (origin href : String) (e : Option String) :
    hasField (invalidURLBody origin) "usage" = true ∧
    hasField (proxyErrorBody e href) "target" = true ∧
    hasField invalidProtocolBody "usage" = false ∧
    hasField invalidProtocolBody "target" = false :=
  ⟨rfl, rfl, rfl, rfl⟩

end WorkersProxy
